import Mathlib

/-!
# Verification of the asset-generation pipeline (Contents_Maker)

Shallow embedding of the pipeline orchestrator of `src/unnamed/part_003`
(`runWithRetry`, `saveToIndexedDB`, `executeAssetGeneration`) together with the
shared data model of `types.ts`.  Remote collaborators (image / speech / video
generation, image inspection, narration splitting, the Veo capability probe,
the IndexedDB write) are black boxes in the source, so they are modelled as
oracle functions indexed by an invocation counter; a thrown JavaScript error is
modelled by its message string (`Except String`), and JavaScript truthiness of
a `string | null` value is modelled explicitly (`null` and `""` are falsy).
-/

set_option maxHeartbeats 2000000

namespace CM

/-- `LayoutType` of `types.ts`: the six visual composition variants. -/
inductive LayoutType
  | SINGLE
  | SPLIT_V
  | SPLIT_H
  | TRI_TOP_SPLIT
  | TRI_BOT_SPLIT
  | GRID_2X2
deriving DecidableEq, Repr

/-- `voice_tone` enum of `SceneScripts`. -/
inductive VoiceTone
  | excited
  | serious
  | calm
  | whisper
deriving DecidableEq, Repr

/-- `SceneAsset` of `types.ts`; optional fields are `Option`. -/
structure SceneAsset where
  base_id : String
  audio_filename : String
  visual_filename : String
  subtitle_filename : String
  audio_url : Option String
  visual_url : Option String
  audio_duration : Option Nat
deriving DecidableEq, Repr

/-- `SceneScripts` of `types.ts`. -/
structure SceneScripts where
  narration : String
  tts_text : Option String
  subtitles : List String
  voice_tone : VoiceTone
deriving DecidableEq, Repr

/-- `ScenePrompts` of `types.ts`; `motion_strength` is an opaque numeric hint. -/
structure ScenePrompts where
  visual_prompt : String
  motion_strength : Nat
deriving DecidableEq, Repr

/-- `ProgressStatus` of `types.ts`: the six independent completion flags. -/
structure ProgressStatus where
  is_script_done : Bool
  is_prompt_done : Bool
  is_image_generated : Bool
  is_image_inspected : Bool
  is_audio_generated : Bool
  is_video_generated : Bool
deriving DecidableEq, Repr

/-- `InspectionData` of `types.ts`. -/
structure InspectionData where
  detected_layout : LayoutType
  panel_count : Nat
  description : String
deriving DecidableEq, Repr

/-- `Cut` of `types.ts`: one narration segment of the 2x2 fallback. -/
structure Cut where
  cut_no : Nat
  narration : String
  visual_detail : String
deriving DecidableEq, Repr

/-- Scene `type` discriminant of `types.ts`. -/
inductive SceneType
  | video
  | image
deriving DecidableEq, Repr

/-- `Scene` of `types.ts` (UI-only fields `isSelected` / `isProcessing` /
`isGeneratingVideo` are untouched by the pipeline and carried opaquely). -/
structure Scene where
  scene_index : Nat
  step_phase : String
  type : SceneType
  duration_prediction : Nat
  assets : SceneAsset
  scripts : SceneScripts
  prompts : ScenePrompts
  progress_status : ProgressStatus
  planned_layout : LayoutType
  inspection_data : Option InspectionData
  cuts : Option (List Cut)
  narration_full : Option String
  isSelected : Option Bool
  isProcessing : Option Bool
  isGeneratingVideo : Option Bool
deriving DecidableEq, Repr

/-- `ScriptMeta` of `types.ts`. -/
structure ScriptMeta where
  title : String
  description : String
  tags : List String
  genre : String
  thumbnail_prompt : String
  bgm_mood : String
  timestamp : Option Nat
deriving DecidableEq, Repr

/-- `GlobalStyle` of `types.ts`. -/
structure GlobalStyle where
  art_style : String
  main_character_desc : Option String
deriving DecidableEq, Repr

/-- `ScriptData` of `types.ts`: the root aggregate. -/
structure ScriptData where
  meta : ScriptMeta
  global_style : GlobalStyle
  scenes : List Scene
deriving DecidableEq, Repr

/-! ## JavaScript-semantics helpers -/

/-- `pat` occurs as a contiguous run at some position of `s`. -/
def listContains : List Char → List Char → Bool
  | s, pat =>
    if pat.isPrefixOf s then true
    else
      match s with
      | [] => false
      | _ :: rest => listContains rest pat

/-- `pat` occurs as a substring of `s` (JavaScript `String.includes`). -/
def containsSub (s pat : String) : Bool :=
  listContains s.toList pat.toList

/-- JavaScript `toLowerCase` (character-wise lower-casing; ASCII letters are
mapped down, Korean characters are case-less and unchanged). -/
def strToLower (s : String) : String := ⟨s.toList.map Char.toLower⟩

/-- JavaScript truthiness of a `string | null` value: `null` and `""` are
falsy, every other string is truthy. -/
def strTruthy : Option String → Bool
  | some s => !s.isEmpty
  | none => false

/-- JavaScript `a || b` for `a : string | undefined`, `b : string`: `a` is
taken when present and non-empty, otherwise `b`. -/
def strOrElse : Option String → String → String
  | some s, b => if s.isEmpty then b else s
  | none, b => b

/-- First occurrence of `pat` in a character list replaced by `repl`
(JavaScript `String.replace` with a string pattern replaces only the first
occurrence). -/
def replaceFirstList (s pat repl : List Char) : List Char :=
  match s with
  | [] => []
  | c :: rest =>
    if pat.isPrefixOf (c :: rest) then
      repl ++ (c :: rest).drop pat.length
    else
      c :: replaceFirstList rest pat repl

/-- JavaScript `s.replace(pat, repl)` for string patterns: first occurrence
only; the string is returned unchanged when `pat` does not occur. -/
def replaceFirst (s pat repl : String) : String :=
  ⟨replaceFirstList s.toList pat.toList repl.toList⟩

/-! ## RetryExecutor (`runWithRetry`, part_003 lines 1105-1134) -/

/-- Quota-exhaustion test of `runWithRetry` on the lower-cased message:
`"quota exceeded"`, `"exceeded quota"`, `"할당량"`, or plain `"quota"`. -/
def isQuotaMsg (msg : String) : Bool :=
  containsSub msg "quota exceeded" || containsSub msg "exceeded quota" ||
    containsSub msg "할당량" || containsSub msg "quota"

/-- Transient-error test of `runWithRetry` on the lower-cased message:
`"429"`, `"resource_exhausted"`, `"503"`, or `"속도"`. -/
def isTransientMsg (msg : String) : Bool :=
  containsSub msg "429" || containsSub msg "resource_exhausted" ||
    containsSub msg "503" || containsSub msg "속도"

/-- Observable outcome of one `runWithRetry` execution: the final result
(`.error m` = the error was re-thrown, `.ok none` = swallowed to `null`,
`.ok (some a)` = success), the number of invocations of the wrapped
operation, and the backoff delays awaited, in order. -/
structure RetryTrace (α : Type) where
  result : Except String (Option α)
  calls : Nat
  waits : List Nat
deriving Repr

/-- `runWithRetry` of part_003: the wrapped operation is an oracle
`fn : Nat → Except String α` giving the outcome of each invocation; `k` is the
index of the next invocation.  On success return the value; on a
quota-exhaustion message re-throw; on a transient message with retries left,
wait `baseDelay` and recurse with `retries - 1` and `baseDelay * 2`; otherwise
swallow the error and return `null`. -/
def runWithRetry {α : Type} (fn : Nat → Except String α) :
    Nat → Nat → Nat → RetryTrace α
  | retries, baseDelay, k =>
    match fn k with
    | .ok a => ⟨.ok (some a), 1, []⟩
    | .error e =>
      let msg := strToLower e
      if isQuotaMsg msg then ⟨.error e, 1, []⟩
      else
        match retries with
        | 0 => ⟨.ok none, 1, []⟩
        | r + 1 =>
          if isTransientMsg msg then
            let rest := runWithRetry fn r (baseDelay * 2) (k + 1)
            ⟨rest.result, rest.calls + 1, baseDelay :: rest.waits⟩
          else ⟨.ok none, 1, []⟩

/-! ## Persistence gateway (`saveToIndexedDB`, part_003 lines 1082-1091)

The underlying `idb-keyval` write is a black box: its outcome is the
`setResult` argument.  The source wraps the write in `try/catch`, so the
embedded function is total — a persistence failure never throws. -/

/-- `saveToIndexedDB`: stamp `meta.timestamp` with the save time and attempt
the key-value write; on write failure swallow the error and return the input
document unchanged. -/
def saveToIndexedDB (now : Nat) (setResult : Except String Unit)
    (data : ScriptData) : ScriptData :=
  let dataWithTimestamp :=
    { data with meta := { data.meta with timestamp := some now } }
  match setResult with
  | .ok _ => dataWithTimestamp
  | .error _ => data

/-! ## Orchestrator (`executeAssetGeneration`, part_003 lines 1141-1308) -/

/-- Observable events of a run: each invocation of a remote collaborator, the
snapshot emission (`onUpdate`), the persistence attempt, and the inter-scene
pacing delay. -/
inductive Event
  | probeVeo
  | callGenerateImage (prompt : String) (layout : LayoutType)
  | callInspectImage (url : Option String)
  | callGenerateVideo (url : Option String) (motion : Nat) (dur : Nat)
  | callSplitNarration (narration visualPrompt : String)
  | callGenerateSpeech (text : String) (tone : VoiceTone)
  | emitSnapshot
  | persist
  | waitMs (ms : Nat)
deriving DecidableEq, Repr

/-- Oracle environment of one run: the Veo capability probe result, the
stream of reads of the mutable `stopSignal.stopped` flag (the n-th read), and
one outcome oracle per remote collaborator, indexed by a global remote-call
counter so that every individual invocation (retry attempts included) has its
own outcome.  `now` and `setResult` give `Date.now()` and the `idb-keyval`
write outcome for the n-th save. -/
structure Env where
  veoAvailable : Bool
  stop : Nat → Bool
  genImage : Nat → String → LayoutType → Except String String
  inspectImage : Nat → Option String → Except String InspectionData
  genVideo : Nat → Option String → Nat → Nat → Except String String
  splitNarration : Nat → String → String → Except String (List Cut)
  genSpeech : Nat → String → VoiceTone → Except String String
  now : Nat → Nat
  setResult : Nat → Except String Unit

/-- Running state of the orchestrator: the working copy of the scenes array,
the event trace, the remote-call counter, the stop-flag read counter, the save
counter, the successfully persisted documents, and the emitted snapshots. -/
structure OrchState where
  scenes : List Scene
  events : List Event
  k : Nat
  sReads : Nat
  saves : Nat
  savedDocs : List ScriptData
  emitted : List ScriptData
deriving Repr

/-- One read of `stopSignal.stopped`. -/
def bumpRead (st : OrchState) : OrchState := { st with sReads := st.sReads + 1 }

/-- Default inspection result substituted when the retry-wrapped inspection
call returns `null`. -/
def defaultInspection : InspectionData :=
  { detected_layout := LayoutType.SINGLE
    panel_count := 1
    description := "Auto-inspection failed" }

/-- `cuts[n]?.visual_detail || dflt` of the grid-prompt template: the n-th
cut's detail when present and non-empty, otherwise the placeholder. -/
def cutDetail (cuts : List Cut) (n : Nat) (dflt : String) : String :=
  match cuts.get? n with
  | some c => if c.visual_detail.isEmpty then dflt else c.visual_detail
  | none => dflt

/-- The composite 2x2 grid prompt template of the fallback branch. -/
def gridPrompt (visualPrompt : String) (cuts : List Cut) : String :=
  visualPrompt ++
    "\n                 \n                 [2x2 GRID LAYOUT - Storyboard Mode]\n                 Panel 1 (Top-Left): " ++
    cutDetail cuts 0 "Opening shot" ++
    "\n                 Panel 2 (Top-Right): " ++
    cutDetail cuts 1 "Development" ++
    "\n                 Panel 3 (Bottom-Left): " ++
    cutDetail cuts 2 "Climax" ++
    "\n                 Panel 4 (Bottom-Right): " ++
    cutDetail cuts 3 "Conclusion" ++
    "\n                 \n                 Style: Consistent continuous storytelling in 4 panels."

/-- Step 1 (image): if `is_image_generated` is false, call `generateImage`
through `runWithRetry`; a truthy result fills the visual asset slot and flips
the flag. -/
def imageStep (env : Env) (i : Nat) (st : OrchState) (dirty : Bool) :
    Except (String × OrchState) (OrchState × Bool) :=
  match st.scenes.get? i with
  | none => .ok (st, dirty)
  | some scene =>
    if scene.progress_status.is_image_generated then .ok (st, dirty)
    else
      let layoutToUse := scene.planned_layout
      let tr := runWithRetry
        (fun k => env.genImage k scene.prompts.visual_prompt layoutToUse)
        3 4000 st.k
      let st1 : OrchState := { st with
        k := st.k + tr.calls
        events := st.events ++
          List.replicate tr.calls
            (.callGenerateImage scene.prompts.visual_prompt layoutToUse) }
      match tr.result with
      | .error e => .error (e, st1)
      | .ok img =>
        if strTruthy img then
          .ok ({ st1 with scenes := st1.scenes.set i { scene with
            assets := { scene.assets with visual_url := img }
            progress_status :=
              { scene.progress_status with is_image_generated := true } } },
            true)
        else .ok (st1, dirty)

/-- Step 2 (inspection): if the image is generated but not inspected, call
`inspectImage` through `runWithRetry`; a `null` result is replaced by the
default degraded result, and `is_image_inspected` is set either way. -/
def inspectionStep (env : Env) (i : Nat) (st : OrchState) (dirty : Bool) :
    Except (String × OrchState) (OrchState × Bool) :=
  match st.scenes.get? i with
  | none => .ok (st, dirty)
  | some scene =>
    if scene.progress_status.is_image_generated &&
        !scene.progress_status.is_image_inspected then
      let tr := runWithRetry
        (fun k => env.inspectImage k scene.assets.visual_url) 3 4000 st.k
      let st1 : OrchState := { st with
        k := st.k + tr.calls
        events := st.events ++
          List.replicate tr.calls (.callInspectImage scene.assets.visual_url) }
      match tr.result with
      | .error e => .error (e, st1)
      | .ok insp =>
        .ok ({ st1 with scenes := st1.scenes.set i { scene with
          inspection_data := some (insp.getD defaultInspection)
          progress_status :=
            { scene.progress_status with is_image_inspected := true } } },
          true)
    else .ok (st, dirty)

/-- Fallback branch of step 3: split the narration into cuts through
`runWithRetry` (`null` coerced to `[]`); when at least one cut came back,
generate the composite 2x2 grid image through `runWithRetry`; a truthy grid
image rewrites the scene to a downgraded image-type scene. -/
def videoFallback (env : Env) (i : Nat) (st : OrchState) (dirty : Bool)
    (scene : Scene) : Except (String × OrchState) (OrchState × Bool) :=
  let tr := runWithRetry
    (fun k =>
      env.splitNarration k scene.scripts.narration scene.prompts.visual_prompt)
    3 4000 st.k
  let st1 : OrchState := { st with
    k := st.k + tr.calls
    events := st.events ++
      List.replicate tr.calls
        (.callSplitNarration scene.scripts.narration
          scene.prompts.visual_prompt) }
  match tr.result with
  | .error e => .error (e, st1)
  | .ok cutsOpt =>
    let cuts := cutsOpt.getD []
    if cuts.length > 0 then
      let gp := gridPrompt scene.prompts.visual_prompt cuts
      let tr2 := runWithRetry
        (fun k => env.genImage k gp LayoutType.GRID_2X2) 3 4000 st1.k
      let st2 : OrchState := { st1 with
        k := st1.k + tr2.calls
        events := st1.events ++
          List.replicate tr2.calls (.callGenerateImage gp LayoutType.GRID_2X2) }
      match tr2.result with
      | .error e => .error (e, st2)
      | .ok gridImg =>
        if strTruthy gridImg then
          .ok ({ st2 with scenes := st2.scenes.set i { scene with
            type := SceneType.image
            planned_layout := LayoutType.GRID_2X2
            narration_full := some scene.scripts.narration
            cuts := some cuts
            assets := { scene.assets with visual_url := gridImg }
            progress_status :=
              { scene.progress_status with is_video_generated := false } } },
            true)
        else .ok (st2, dirty)
    else .ok (st1, dirty)

/-- Step 3 (video or fallback): for an eligible video-type scene, call
`generateVideo` directly — NOT through `runWithRetry` — when the capability is
available (so a thrown error propagates out); a truthy video URL completes the
video step, an empty one (or an unavailable capability) goes to the fallback. -/
def videoStep (env : Env) (i : Nat) (st : OrchState) (dirty : Bool) :
    Except (String × OrchState) (OrchState × Bool) :=
  match st.scenes.get? i with
  | none => .ok (st, dirty)
  | some scene =>
    if (scene.type == SceneType.video) &&
        scene.progress_status.is_image_generated &&
        !scene.progress_status.is_video_generated then
      if env.veoAvailable then
        let st1 : OrchState := { st with
          k := st.k + 1
          events := st.events ++
            [.callGenerateVideo scene.assets.visual_url
              scene.prompts.motion_strength scene.duration_prediction] }
        match env.genVideo st.k scene.assets.visual_url
            scene.prompts.motion_strength scene.duration_prediction with
        | .error e => .error (e, st1)
        | .ok videoUrl =>
          if !videoUrl.isEmpty then
            .ok ({ st1 with scenes := st1.scenes.set i { scene with
              assets := { scene.assets with
                visual_url := some videoUrl
                visual_filename :=
                  replaceFirst scene.assets.visual_filename ".png" ".mp4" }
              progress_status :=
                { scene.progress_status with is_video_generated := true } } },
              true)
          else videoFallback env i st1 dirty scene
      else videoFallback env i st dirty scene
    else .ok (st, dirty)

/-- Step 4 (audio): if `is_audio_generated` is false, read
`tts_text || narration_full || narration` and call `generateSpeech` through
`runWithRetry`; a truthy result fills the audio slot and flips the flag. -/
def audioStep (env : Env) (i : Nat) (st : OrchState) (dirty : Bool) :
    Except (String × OrchState) (OrchState × Bool) :=
  match st.scenes.get? i with
  | none => .ok (st, dirty)
  | some scene =>
    if scene.progress_status.is_audio_generated then .ok (st, dirty)
    else
      let textToRead := strOrElse scene.scripts.tts_text
        (strOrElse scene.narration_full scene.scripts.narration)
      let tr := runWithRetry
        (fun k => env.genSpeech k textToRead scene.scripts.voice_tone)
        3 4000 st.k
      let st1 : OrchState := { st with
        k := st.k + tr.calls
        events := st.events ++
          List.replicate tr.calls
            (.callGenerateSpeech textToRead scene.scripts.voice_tone) }
      match tr.result with
      | .error e => .error (e, st1)
      | .ok audio =>
        if strTruthy audio then
          .ok ({ st1 with scenes := st1.scenes.set i { scene with
            assets := { scene.assets with audio_url := audio }
            progress_status :=
              { scene.progress_status with is_audio_generated := true } } },
            true)
        else .ok (st1, dirty)

/-- End-of-scene checkpoint: `onUpdate(newData); await saveToIndexedDB(newData)`.
The emitted snapshot is recorded, and the timestamped document is recorded as
persisted exactly when the underlying key-value write succeeds (matching
`saveToIndexedDB` above, whose return value the orchestrator discards). -/
def doSave (env : Env) (pd : ScriptData) (st : OrchState) : OrchState :=
  let newData : ScriptData := { pd with scenes := st.scenes }
  let stamped : ScriptData :=
    { newData with meta := { newData.meta with timestamp := some (env.now st.saves) } }
  { st with
    events := st.events ++ [Event.emitSnapshot, Event.persist]
    emitted := st.emitted ++ [newData]
    saves := st.saves + 1
    savedDocs := st.savedDocs ++
      (match env.setResult st.saves with
        | .ok _ => [stamped]
        | .error _ => []) }

/-- Tail of one `for` iteration: the conditional end-of-scene checkpoint
(`if (isDirty) ...`) followed by the read of the stop flag guarding the
inter-scene 2000 ms delay. -/
def sceneEpilogue (env : Env) (pd : ScriptData) (st4 : OrchState)
    (d4 : Bool) : OrchState :=
  let st5 := if d4 then doSave env pd st4 else st4
  let st6 := bumpRead st5
  if env.stop st5.sReads then st6
  else { st6 with events := st6.events ++ [Event.waitMs 2000] }

/-- Body of one `for` iteration after the top-of-loop stop check: the four
steps, each separated by a read of the stop flag whose `true` observation
breaks out of the loop at once (skipping the end-of-scene checkpoint), then
the conditional checkpoint and the inter-scene 2000 ms delay.  The returned
`Bool` is `true` when a mid-scene `break` fired. -/
def processScene (env : Env) (pd : ScriptData) (i : Nat) (st : OrchState) :
    Except (String × OrchState) (OrchState × Bool) :=
  match imageStep env i st false with
  | .error e => .error e
  | .ok (st1, d1) =>
    if env.stop st1.sReads then .ok (bumpRead st1, true)
    else
      match inspectionStep env i (bumpRead st1) d1 with
      | .error e => .error e
      | .ok (st2, d2) =>
        if env.stop st2.sReads then .ok (bumpRead st2, true)
        else
          match videoStep env i (bumpRead st2) d2 with
          | .error e => .error e
          | .ok (st3, d3) =>
            if env.stop st3.sReads then .ok (bumpRead st3, true)
            else
              match audioStep env i (bumpRead st3) d3 with
              | .error e => .error e
              | .ok (st4, d4) => .ok (sceneEpilogue env pd st4 d4, false)

/-- The scene loop over the remaining indices, with the top-of-loop stop
check of each iteration. -/
def orchLoop (env : Env) (pd : ScriptData) :
    List Nat → OrchState → Except (String × OrchState) OrchState
  | [], st => .ok st
  | i :: rest, st =>
    if env.stop st.sReads then .ok (bumpRead st)
    else
      match processScene env pd i (bumpRead st) with
      | .error e => .error e
      | .ok (st1, broke) =>
        if broke then .ok st1 else orchLoop env pd rest st1

/-- `executeAssetGeneration`: copy the scenes array, probe the Veo capability
once, then run the scene loop in index order.  An error value is a thrown
exception escaping the whole function, paired with the state at the throw. -/
def initState (pd : ScriptData) : OrchState := {
  scenes := pd.scenes
  events := [Event.probeVeo]
  k := 0
  sReads := 0
  saves := 0
  savedDocs := []
  emitted := [] }

def executeAssetGeneration (env : Env) (pd : ScriptData) :
    Except (String × OrchState) OrchState :=
  orchLoop env pd (List.range pd.scenes.length) (initState pd)

/-! ## Helpers on run results -/

/-- The orchestrator state carried by either outcome of a run (final state on
normal return, state at the throw on an escaping exception). -/
def resState : Except (String × OrchState) OrchState → OrchState
  | .ok st => st
  | .error (_, st) => st

/-- The message of an escaping exception, when the run aborted. -/
def errMsg : Except (String × OrchState) OrchState → Option String
  | .ok _ => none
  | .error (m, _) => some m

/-- The event trace of an escaping exception, when the run aborted. -/
def errEvents : Except (String × OrchState) OrchState → Option (List Event)
  | .ok _ => none
  | .error (_, st) => some st.events

/-- Modelled from the spec's words for the audio-text priority order: the
TTS-optimized text field if present, else the full backup narration if
present, else the plain narration. -/
def specAudioChoice (tts narrationFull : Option String) (narration : String) :
    String :=
  match tts with
  | some t => t
  | none =>
    match narrationFull with
    | some f => f
    | none => narration

/-! ## Concrete fixtures for witnesses and counterexamples -/

/-- A fresh image-type scene, no assets generated yet. -/
def sampleScene : Scene := {
  scene_index := 0
  step_phase := "construction"
  type := SceneType.image
  duration_prediction := 5
  assets := { base_id := "s0", audio_filename := "s0.mp3"
              visual_filename := "s0.png", subtitle_filename := "s0.srt"
              audio_url := none, visual_url := none, audio_duration := none }
  scripts := { narration := "hello world", tts_text := none, subtitles := []
               voice_tone := VoiceTone.calm }
  prompts := { visual_prompt := "a cat", motion_strength := 5 }
  progress_status := { is_script_done := true, is_prompt_done := true
                       is_image_generated := false, is_image_inspected := false
                       is_audio_generated := false, is_video_generated := false }
  planned_layout := LayoutType.SINGLE
  inspection_data := none
  cuts := none
  narration_full := none
  isSelected := none
  isProcessing := none
  isGeneratingVideo := none }

/-- A video-type scene whose base image is already generated and inspected and
whose audio is done, so only the video-or-fallback step is missing. -/
def videoScene : Scene := { sampleScene with
  type := SceneType.video
  assets := { sampleScene.assets with visual_url := some "img0.png" }
  progress_status := { sampleScene.progress_status with
    is_image_generated := true
    is_image_inspected := true
    is_audio_generated := true } }

/-- A one-scene document around `sampleScene`. -/
def sampleDoc : ScriptData := {
  meta := { title := "t", description := "d", tags := [], genre := "g"
            thumbnail_prompt := "tp", bgm_mood := "m", timestamp := none }
  global_style := { art_style := "anime", main_character_desc := none }
  scenes := [sampleScene] }

/-- A one-scene document around `videoScene`. -/
def videoDoc : ScriptData := { sampleDoc with scenes := [videoScene] }

/-- All collaborators succeed on the first attempt; Veo unavailable; never
cancelled. -/
def happyEnv : Env := {
  veoAvailable := false
  stop := fun _ => false
  genImage := fun _ _ _ => .ok "img"
  inspectImage := fun _ _ =>
    .ok { detected_layout := LayoutType.SINGLE, panel_count := 1
          description := "ok" }
  genVideo := fun _ _ _ _ => .ok "vid"
  splitNarration := fun _ _ _ => .ok []
  genSpeech := fun _ _ _ => .ok "aud"
  now := fun _ => 111
  setResult := fun _ => .ok () }

/-- Like `happyEnv`, but the second read of the stop flag (the one right after
the image step) observes a cancellation. -/
def stopAfterImageEnv : Env := { happyEnv with stop := fun n => n == 1 }

/-- Veo reports available but the direct video-generation call throws an
ordinary (non-quota) error. -/
def videoThrowEnv : Env := { happyEnv with
  veoAvailable := true
  genVideo := fun _ _ _ _ => .error "network down" }

/-- Veo unavailable; narration splitting yields four cuts and the grid image
succeeds, so the 2x2 fallback completes. -/
def fourCuts : List Cut :=
  [{ cut_no := 1, narration := "n1", visual_detail := "v1" },
   { cut_no := 2, narration := "n2", visual_detail := "v2" },
   { cut_no := 3, narration := "n3", visual_detail := "v3" },
   { cut_no := 4, narration := "n4", visual_detail := "v4" }]

/-- Veo available but returning an empty video; splitting yields `fourCuts`;
the grid image generation succeeds. -/
def fallbackEnv : Env := { happyEnv with
  veoAvailable := true
  genVideo := fun _ _ _ _ => .ok ""
  splitNarration := fun _ _ _ => .ok fourCuts
  genSpeech := fun _ _ _ => .ok "aud" }

/-- The first image-generation attempt throws a quota-exhaustion error. -/
def quotaEnv : Env := { happyEnv with
  genImage := fun _ _ _ => .error "Quota exceeded: daily limit" }

/-- The inspection call always fails with a non-transient, non-quota error,
so the retry executor swallows it to `null`. -/
def inspectFailEnv : Env := { happyEnv with
  inspectImage := fun _ _ => .error "bad image" }

/-- The expected state at the throw when the very first image call of a run
fails with a quota error: one probe event, one image call, nothing saved. -/
def quotaAbortState (pd : ScriptData) (scene0 : Scene) : OrchState := {
  scenes := pd.scenes
  events := [Event.probeVeo,
    Event.callGenerateImage scene0.prompts.visual_prompt scene0.planned_layout]
  k := 1
  sReads := 1
  saves := 0
  savedDocs := []
  emitted := [] }

/-- Witness for `retry_backoff_growth`: a concrete operation failing twice
with a 429 rate-limit message and then succeeding. -/
def fnC5 : Nat → Except String String := fun k =>
  if k < 2 then .error "429 Too Many Requests" else .ok "done"

/-- Witness for `quota_substring_precedes_transient`: a rate-limit message
that both carries transient indicators and mentions quota. -/
def fnC9 : Nat → Except String String := fun _ =>
  .error "429 RESOURCE_EXHAUSTED: quota metric exceeded"

/-- A scene whose image is generated but not yet inspected. -/
def inspectScene : Scene := { sampleScene with
  assets := { sampleScene.assets with visual_url := some "img0.png" }
  progress_status :=
    { sampleScene.progress_status with is_image_generated := true } }

/-- A scene carrying both a TTS-optimized text and a backup narration. -/
def audioScene : Scene := { sampleScene with
  scripts := { sampleScene.scripts with tts_text := some "tts text" }
  narration_full := some "full narration" }

/-- Veo unavailable, narration splitting yields four cuts: every video scene
goes straight to the 2x2 fallback with no video-generation call. -/
def gateEnv : Env := { happyEnv with
  splitNarration := fun _ _ _ => .ok fourCuts }

/-- The orchestrator state at the start of a scene iteration (after the
top-of-loop stop read) for a one-scene document. -/
def wSt : OrchState := {
  scenes := [sampleScene]
  events := [Event.probeVeo]
  k := 0
  sReads := 1
  saves := 0
  savedDocs := []
  emitted := [] }

/-- Like `wSt` but around `videoScene`. -/
def wVSt : OrchState := { wSt with scenes := [videoScene] }

/-- Like `wSt` but around `inspectScene`. -/
def wISt : OrchState := { wSt with scenes := [inspectScene] }

/-- Like `wSt` but around `audioScene`. -/
def wASt : OrchState := { wSt with scenes := [audioScene] }

/-- The state carried by a step result (normal or thrown). -/
def stepState : Except (String × OrchState) (OrchState × Bool) → OrchState
  | .ok (st, _) => st
  | .error (_, st) => st

/-- Events a scene step may append: never the capability probe, and never a
video-generation call when the capability probe returned false. -/
def stepOkEvents (veo : Bool) (l : List Event) : Prop :=
  Event.probeVeo ∉ l ∧
    (veo = false → ∀ u m d, Event.callGenerateVideo u m d ∉ l)

/-- `st'` extends `st` by appending only step-permitted events. -/
def extendsSt (env : Env) (st st' : OrchState) : Prop :=
  ∃ l, st'.events = st.events ++ l ∧ stepOkEvents env.veoAvailable l

/-! ## Theorems: RetryExecutor -/

/-- Unfolding lemma: successful invocation returns at once. -/
theorem runWithRetry_ok {α : Type} {fn : Nat → Except String α} {a : α}
    {retries baseDelay k : Nat} (hfn : fn k = .ok a) :
    runWithRetry fn retries baseDelay k = ⟨.ok (some a), 1, []⟩ := by
  rw [runWithRetry, hfn]

/-- Unfolding lemma: a quota-exhaustion failure is re-thrown at once. -/
theorem runWithRetry_quota {α : Type} {fn : Nat → Except String α} {e : String}
    {retries baseDelay k : Nat} (hfn : fn k = .error e)
    (hq : isQuotaMsg (strToLower e) = true) :
    runWithRetry fn retries baseDelay k = ⟨.error e, 1, []⟩ := by
  rw [runWithRetry, hfn]
  simp [hq]

/-- Unfolding lemma: a transient failure with retries left waits `baseDelay`
and recurses with `retries - 1` and `baseDelay * 2`. -/
theorem runWithRetry_transient {α : Type} {fn : Nat → Except String α}
    {e : String} {r baseDelay k : Nat} (hfn : fn k = .error e)
    (hq : isQuotaMsg (strToLower e) = false) (ht : isTransientMsg (strToLower e) = true) :
    runWithRetry fn (r + 1) baseDelay k =
      ⟨(runWithRetry fn r (baseDelay * 2) (k + 1)).result,
        (runWithRetry fn r (baseDelay * 2) (k + 1)).calls + 1,
        baseDelay :: (runWithRetry fn r (baseDelay * 2) (k + 1)).waits⟩ := by
  rw [runWithRetry, hfn]
  simp [hq, ht]

/-- Unfolding lemma: a failure that is neither quota-fatal nor
transient-with-retries-left is swallowed to `null`. -/
theorem runWithRetry_swallow {α : Type} {fn : Nat → Except String α}
    {e : String} {retries baseDelay k : Nat} (hfn : fn k = .error e)
    (hq : isQuotaMsg (strToLower e) = false)
    (ht : retries = 0 ∨ isTransientMsg (strToLower e) = false) :
    runWithRetry fn retries baseDelay k = ⟨.ok none, 1, []⟩ := by
  rw [runWithRetry, hfn]
  rcases ht with h0 | htr
  · subst h0
    simp [hq]
  · cases retries with
    | zero => simp [hq]
    | succ r => simp [hq, htr]

/-- C5: for a wrapped operation that fails exactly twice with a transient
(non-quota) error and then succeeds, `runWithRetry` with `retries = 3` and
`baseDelay = 4000` invokes the operation exactly 3 times, waits 4000 ms before
the second invocation and 8000 ms before the third, and returns the success
value. -/
theorem retry_backoff_growth {α : Type} (fn : Nat → Except String α) (v : α)
    (m0 m1 : String)
    (h0 : fn 0 = .error m0) (h1 : fn 1 = .error m1) (h2 : fn 2 = .ok v)
    (hq0 : isQuotaMsg (strToLower m0) = false)
    (ht0 : isTransientMsg (strToLower m0) = true)
    (hq1 : isQuotaMsg (strToLower m1) = false)
    (ht1 : isTransientMsg (strToLower m1) = true) :
    runWithRetry fn 3 4000 0 = ⟨.ok (some v), 3, [4000, 8000]⟩ := by
  have e1 := @runWithRetry_transient _ fn m0 2 4000 0 h0 hq0 ht0
  have e2 := @runWithRetry_transient _ fn m1 1 8000 1 h1 hq1 ht1
  have e3 := @runWithRetry_ok _ fn v 1 16000 2 h2
  simp only [show (2 : Nat) + 1 = 3 by rfl, show (4000 : Nat) * 2 = 8000 by rfl,
    show (0 : Nat) + 1 = 1 by rfl] at e1
  simp only [show (1 : Nat) + 1 = 2 by rfl,
    show (8000 : Nat) * 2 = 16000 by rfl] at e2
  rw [e1, e2, e3]

theorem retry_backoff_growth_witness :
    runWithRetry fnC5 3 4000 0 = ⟨.ok (some "done"), 3, [4000, 8000]⟩ :=
  retry_backoff_growth fnC5 "done" "429 Too Many Requests"
    "429 Too Many Requests" rfl rfl rfl (by decide) (by decide) (by decide)
    (by decide)

/-- C9: the quota check precedes the transient-retry check, and plain
`"quota"` is among its disjuncts — so every error whose lower-cased message
contains `"quota"` (even one that also carries a transient indicator such as
`"429"` or `"resource_exhausted"`) is re-thrown immediately, with no wait and
no further invocation of the wrapped operation. -/
theorem quota_substring_precedes_transient {α : Type}
    {fn : Nat → Except String α} {e : String} {retries baseDelay k : Nat}
    (hfn : fn k = .error e)
    (hquota : containsSub (strToLower e) "quota" = true) :
    runWithRetry fn retries baseDelay k = ⟨.error e, 1, []⟩ := by
  apply runWithRetry_quota hfn
  simp [isQuotaMsg, hquota]

theorem quota_substring_precedes_transient_witness :
    runWithRetry fnC9 3 4000 0 =
      ⟨.error "429 RESOURCE_EXHAUSTED: quota metric exceeded", 1, []⟩ :=
  quota_substring_precedes_transient rfl (by decide)

/-! ## Theorems: persistence gateway -/

/-- C10: `saveToIndexedDB` is total (the source wraps the key-value write in
`try/catch`, so it never throws): on a successful write it returns the
document with `meta.timestamp` replaced by the save time, and on a failed
write it swallows the error and returns the input document unchanged. -/
theorem save_swallows_write_failure (now : Nat) (res : Except String Unit)
    (data : ScriptData) :
    (∀ u, res = .ok u → saveToIndexedDB now res data =
      { data with meta := { data.meta with timestamp := some now } }) ∧
    (∀ e, res = .error e → saveToIndexedDB now res data = data) := by
  constructor
  · intro u h
    subst h
    rfl
  · intro e h
    subst h
    rfl

/-! ## Invariant machinery for the orchestrator loop -/

theorem stepOkEvents_nil (veo : Bool) : stepOkEvents veo [] :=
  ⟨List.not_mem_nil _, fun _ _ _ _ => List.not_mem_nil _⟩

theorem stepOkEvents_append {veo : Bool} {l1 l2 : List Event}
    (h1 : stepOkEvents veo l1) (h2 : stepOkEvents veo l2) :
    stepOkEvents veo (l1 ++ l2) := by
  refine ⟨?_, ?_⟩
  · simp [List.mem_append]
    exact ⟨h1.1, h2.1⟩
  · intro hv u m d
    simp [List.mem_append]
    exact ⟨h1.2 hv u m d, h2.2 hv u m d⟩

theorem stepOkEvents_replicate (veo : Bool) (n : Nat) (ev : Event)
    (h1 : ev ≠ Event.probeVeo)
    (h2 : veo = false → ∀ u m d, ev ≠ Event.callGenerateVideo u m d) :
    stepOkEvents veo (List.replicate n ev) := by
  refine ⟨?_, ?_⟩
  · simp [List.mem_replicate]
    intro _ h
    exact h1 h.symm
  · intro hv u m d
    simp [List.mem_replicate]
    intro _ h
    exact h2 hv u m d h.symm

theorem stepOkEvents_singleton (veo : Bool) (ev : Event)
    (h1 : ev ≠ Event.probeVeo)
    (h2 : veo = false → ∀ u m d, ev ≠ Event.callGenerateVideo u m d) :
    stepOkEvents veo [ev] := by
  refine ⟨?_, ?_⟩
  · simp
    exact fun h => h1 h.symm
  · intro hv u m d
    simp
    exact fun h => h2 hv u m d h.symm

theorem extendsSt_of_eq {env : Env} {st st' : OrchState}
    (h : st'.events = st.events) : extendsSt env st st' :=
  ⟨[], by rw [List.append_nil, h], stepOkEvents_nil _⟩

theorem extendsSt_rfl {env : Env} {st : OrchState} : extendsSt env st st :=
  extendsSt_of_eq rfl

theorem extendsSt_trans {env : Env} {a b c : OrchState}
    (h1 : extendsSt env a b) (h2 : extendsSt env b c) : extendsSt env a c := by
  obtain ⟨l1, e1, p1⟩ := h1
  obtain ⟨l2, e2, p2⟩ := h2
  exact ⟨l1 ++ l2, by rw [e2, e1, List.append_assoc],
    stepOkEvents_append p1 p2⟩

/-- The image step appends only image-generation call events and leaves the
checkpoint bookkeeping (emitted snapshots, save counter, persisted documents)
untouched. -/
theorem imageStep_inv (env : Env) (i : Nat) (st : OrchState) (d : Bool) :
    extendsSt env st (stepState (imageStep env i st d)) ∧
    (stepState (imageStep env i st d)).emitted = st.emitted ∧
    (stepState (imageStep env i st d)).saves = st.saves ∧
    (stepState (imageStep env i st d)).savedDocs = st.savedDocs := by
  simp only [imageStep]
  split
  · exact ⟨extendsSt_rfl, rfl, rfl, rfl⟩
  · split
    · exact ⟨extendsSt_rfl, rfl, rfl, rfl⟩
    · split
      · exact ⟨⟨_, rfl, stepOkEvents_replicate _ _ _ (by simp) (by simp)⟩,
          rfl, rfl, rfl⟩
      · split
        · exact ⟨⟨_, rfl, stepOkEvents_replicate _ _ _ (by simp) (by simp)⟩,
            rfl, rfl, rfl⟩
        · exact ⟨⟨_, rfl, stepOkEvents_replicate _ _ _ (by simp) (by simp)⟩,
            rfl, rfl, rfl⟩

/-- The inspection step appends only inspection call events and leaves the
checkpoint bookkeeping untouched. -/
theorem inspectionStep_inv (env : Env) (i : Nat) (st : OrchState) (d : Bool) :
    extendsSt env st (stepState (inspectionStep env i st d)) ∧
    (stepState (inspectionStep env i st d)).emitted = st.emitted ∧
    (stepState (inspectionStep env i st d)).saves = st.saves ∧
    (stepState (inspectionStep env i st d)).savedDocs = st.savedDocs := by
  simp only [inspectionStep]
  split
  · exact ⟨extendsSt_rfl, rfl, rfl, rfl⟩
  · split
    · split
      · exact ⟨⟨_, rfl, stepOkEvents_replicate _ _ _ (by simp) (by simp)⟩,
          rfl, rfl, rfl⟩
      · exact ⟨⟨_, rfl, stepOkEvents_replicate _ _ _ (by simp) (by simp)⟩,
          rfl, rfl, rfl⟩
    · exact ⟨extendsSt_rfl, rfl, rfl, rfl⟩

/-- The fallback branch appends only narration-splitting and image-generation
call events and leaves the checkpoint bookkeeping untouched. -/
theorem videoFallback_inv (env : Env) (i : Nat) (st : OrchState) (d : Bool)
    (scene : Scene) :
    extendsSt env st (stepState (videoFallback env i st d scene)) ∧
    (stepState (videoFallback env i st d scene)).emitted = st.emitted ∧
    (stepState (videoFallback env i st d scene)).saves = st.saves ∧
    (stepState (videoFallback env i st d scene)).savedDocs = st.savedDocs := by
  simp only [videoFallback]
  split
  · exact ⟨⟨_, rfl, stepOkEvents_replicate _ _ _ (by simp) (by simp)⟩,
      rfl, rfl, rfl⟩
  · split
    · split
      · exact ⟨⟨_, List.append_assoc _ _ _,
          stepOkEvents_append
            (stepOkEvents_replicate _ _ _ (by simp) (by simp))
            (stepOkEvents_replicate _ _ _ (by simp) (by simp))⟩,
          rfl, rfl, rfl⟩
      · split
        · exact ⟨⟨_, List.append_assoc _ _ _,
            stepOkEvents_append
              (stepOkEvents_replicate _ _ _ (by simp) (by simp))
              (stepOkEvents_replicate _ _ _ (by simp) (by simp))⟩,
            rfl, rfl, rfl⟩
        · exact ⟨⟨_, List.append_assoc _ _ _,
            stepOkEvents_append
              (stepOkEvents_replicate _ _ _ (by simp) (by simp))
              (stepOkEvents_replicate _ _ _ (by simp) (by simp))⟩,
            rfl, rfl, rfl⟩
    · exact ⟨⟨_, rfl, stepOkEvents_replicate _ _ _ (by simp) (by simp)⟩,
        rfl, rfl, rfl⟩

/-- The video-or-fallback step appends a video-generation call event only
when the probe reported the capability available, and leaves the checkpoint
bookkeeping untouched. -/
theorem videoStep_inv (env : Env) (i : Nat) (st : OrchState) (d : Bool) :
    extendsSt env st (stepState (videoStep env i st d)) ∧
    (stepState (videoStep env i st d)).emitted = st.emitted ∧
    (stepState (videoStep env i st d)).saves = st.saves ∧
    (stepState (videoStep env i st d)).savedDocs = st.savedDocs := by
  simp only [videoStep]
  split
  · exact ⟨extendsSt_rfl, rfl, rfl, rfl⟩
  · rename_i scene heq
    split
    · split
      · rename_i hveo
        have hsing : stepOkEvents env.veoAvailable
            [Event.callGenerateVideo scene.assets.visual_url
              scene.prompts.motion_strength scene.duration_prediction] :=
          stepOkEvents_singleton _ _ (by simp)
            (fun hv => by rw [hveo] at hv; cases hv)
        split
        · exact ⟨⟨_, rfl, hsing⟩, rfl, rfl, rfl⟩
        · split
          · exact ⟨⟨_, rfl, hsing⟩, rfl, rfl, rfl⟩
          · refine ⟨extendsSt_trans (⟨_, rfl, hsing⟩ : extendsSt env st _)
              (videoFallback_inv env i _ d _).1, ?_, ?_, ?_⟩
            · exact (videoFallback_inv env i _ d _).2.1
            · exact (videoFallback_inv env i _ d _).2.2.1
            · exact (videoFallback_inv env i _ d _).2.2.2
      · exact videoFallback_inv env i st d _
    · exact ⟨extendsSt_rfl, rfl, rfl, rfl⟩

/-- The audio step appends only speech-generation call events and leaves the
checkpoint bookkeeping untouched. -/
theorem audioStep_inv (env : Env) (i : Nat) (st : OrchState) (d : Bool) :
    extendsSt env st (stepState (audioStep env i st d)) ∧
    (stepState (audioStep env i st d)).emitted = st.emitted ∧
    (stepState (audioStep env i st d)).saves = st.saves ∧
    (stepState (audioStep env i st d)).savedDocs = st.savedDocs := by
  simp only [audioStep]
  split
  · exact ⟨extendsSt_rfl, rfl, rfl, rfl⟩
  · split
    · exact ⟨extendsSt_rfl, rfl, rfl, rfl⟩
    · split
      · exact ⟨⟨_, rfl, stepOkEvents_replicate _ _ _ (by simp) (by simp)⟩,
          rfl, rfl, rfl⟩
      · split
        · exact ⟨⟨_, rfl, stepOkEvents_replicate _ _ _ (by simp) (by simp)⟩,
            rfl, rfl, rfl⟩
        · exact ⟨⟨_, rfl, stepOkEvents_replicate _ _ _ (by simp) (by simp)⟩,
            rfl, rfl, rfl⟩

theorem doSave_extends (env : Env) (pd : ScriptData) (st : OrchState) :
    extendsSt env st (doSave env pd st) :=
  ⟨[Event.emitSnapshot, Event.persist], rfl,
    by simp, fun _ u m d => by simp⟩

/-- The scene epilogue appends only checkpoint and pacing events. -/
theorem sceneEpilogue_extends (env : Env) (pd : ScriptData) (st4 : OrchState)
    (d4 : Bool) : extendsSt env st4 (sceneEpilogue env pd st4 d4) := by
  cases d4 with
  | false =>
    simp only [sceneEpilogue, Bool.false_eq_true, if_false]
    split
    · exact extendsSt_of_eq rfl
    · exact ⟨[Event.waitMs 2000], rfl, by simp, fun _ u m d => by simp⟩
  | true =>
    simp only [sceneEpilogue, if_true]
    split
    · exact extendsSt_trans (doSave_extends env pd st4) (extendsSt_of_eq rfl)
    · exact extendsSt_trans (doSave_extends env pd st4)
        ⟨[Event.waitMs 2000], rfl, by simp, fun _ u m d => by simp⟩

/-- The epilogue never modifies the scenes array. -/
theorem sceneEpilogue_scenes (env : Env) (pd : ScriptData) (st4 : OrchState)
    (d4 : Bool) : (sceneEpilogue env pd st4 d4).scenes = st4.scenes := by
  cases d4 <;> simp only [sceneEpilogue, doSave, bumpRead,
    Bool.false_eq_true, if_false, if_true] <;> split <;> rfl

/-- With a dirty scene the epilogue emits the updated document and performs
exactly one save attempt. -/
theorem sceneEpilogue_dirty (env : Env) (pd : ScriptData) (st4 : OrchState) :
    (sceneEpilogue env pd st4 true).emitted =
      st4.emitted ++ [{ pd with scenes := st4.scenes }] ∧
    (sceneEpilogue env pd st4 true).saves = st4.saves + 1 := by
  simp only [sceneEpilogue, doSave, bumpRead, if_true]
  split <;> exact ⟨rfl, rfl⟩

/-- With a clean scene the epilogue neither emits nor saves. -/
theorem sceneEpilogue_clean (env : Env) (pd : ScriptData) (st4 : OrchState) :
    (sceneEpilogue env pd st4 false).emitted = st4.emitted ∧
    (sceneEpilogue env pd st4 false).saves = st4.saves ∧
    (sceneEpilogue env pd st4 false).savedDocs = st4.savedDocs := by
  simp only [sceneEpilogue, doSave, bumpRead, Bool.false_eq_true, if_false]
  split <;> exact ⟨rfl, rfl, rfl⟩

/-- A step that returns with the dirty flag still false has not modified the
scenes array (and its input dirty flag was false). -/
theorem imageStep_no_dirty_no_change (env : Env) (i : Nat) (st : OrchState)
    (d : Bool) (st' : OrchState)
    (h : imageStep env i st d = .ok (st', false)) :
    st'.scenes = st.scenes ∧ d = false := by
  simp only [imageStep] at h
  split at h
  · simp only [Except.ok.injEq, Prod.mk.injEq] at h
    exact ⟨by rw [← h.1], h.2⟩
  · split at h
    · simp only [Except.ok.injEq, Prod.mk.injEq] at h
      exact ⟨by rw [← h.1], h.2⟩
    · split at h
      · exact absurd h (by simp)
      · split at h
        · simp only [Except.ok.injEq, Prod.mk.injEq] at h
          exact absurd h.2 (by simp)
        · simp only [Except.ok.injEq, Prod.mk.injEq] at h
          exact ⟨by rw [← h.1], h.2⟩

/-- Same as `imageStep_no_dirty_no_change` for the inspection step. -/
theorem inspectionStep_no_dirty_no_change (env : Env) (i : Nat)
    (st : OrchState) (d : Bool) (st' : OrchState)
    (h : inspectionStep env i st d = .ok (st', false)) :
    st'.scenes = st.scenes ∧ d = false := by
  simp only [inspectionStep] at h
  split at h
  · simp only [Except.ok.injEq, Prod.mk.injEq] at h
    exact ⟨by rw [← h.1], h.2⟩
  · split at h
    · split at h
      · exact absurd h (by simp)
      · simp only [Except.ok.injEq, Prod.mk.injEq] at h
        exact absurd h.2 (by simp)
    · simp only [Except.ok.injEq, Prod.mk.injEq] at h
      exact ⟨by rw [← h.1], h.2⟩

/-- Same as `imageStep_no_dirty_no_change` for the fallback branch. -/
theorem videoFallback_no_dirty_no_change (env : Env) (i : Nat)
    (st : OrchState) (d : Bool) (scene : Scene) (st' : OrchState)
    (h : videoFallback env i st d scene = .ok (st', false)) :
    st'.scenes = st.scenes ∧ d = false := by
  simp only [videoFallback] at h
  split at h
  · exact absurd h (by simp)
  · split at h
    · split at h
      · exact absurd h (by simp)
      · split at h
        · simp only [Except.ok.injEq, Prod.mk.injEq] at h
          exact absurd h.2 (by simp)
        · simp only [Except.ok.injEq, Prod.mk.injEq] at h
          exact ⟨by rw [← h.1], h.2⟩
    · simp only [Except.ok.injEq, Prod.mk.injEq] at h
      exact ⟨by rw [← h.1], h.2⟩

/-- Same as `imageStep_no_dirty_no_change` for the video-or-fallback step. -/
theorem videoStep_no_dirty_no_change (env : Env) (i : Nat) (st : OrchState)
    (d : Bool) (st' : OrchState)
    (h : videoStep env i st d = .ok (st', false)) :
    st'.scenes = st.scenes ∧ d = false := by
  simp only [videoStep] at h
  split at h
  · simp only [Except.ok.injEq, Prod.mk.injEq] at h
    exact ⟨by rw [← h.1], h.2⟩
  · split at h
    · split at h
      · split at h
        · exact absurd h (by simp)
        · split at h
          · simp only [Except.ok.injEq, Prod.mk.injEq] at h
            exact absurd h.2 (by simp)
          · have hf := videoFallback_no_dirty_no_change env i _ d _ st' h
            exact ⟨hf.1, hf.2⟩
      · exact videoFallback_no_dirty_no_change env i st d _ st' h
    · simp only [Except.ok.injEq, Prod.mk.injEq] at h
      exact ⟨by rw [← h.1], h.2⟩

/-- Same as `imageStep_no_dirty_no_change` for the audio step. -/
theorem audioStep_no_dirty_no_change (env : Env) (i : Nat) (st : OrchState)
    (d : Bool) (st' : OrchState)
    (h : audioStep env i st d = .ok (st', false)) :
    st'.scenes = st.scenes ∧ d = false := by
  simp only [audioStep] at h
  split at h
  · simp only [Except.ok.injEq, Prod.mk.injEq] at h
    exact ⟨by rw [← h.1], h.2⟩
  · split at h
    · simp only [Except.ok.injEq, Prod.mk.injEq] at h
      exact ⟨by rw [← h.1], h.2⟩
    · split at h
      · exact absurd h (by simp)
      · split at h
        · simp only [Except.ok.injEq, Prod.mk.injEq] at h
          exact absurd h.2 (by simp)
        · simp only [Except.ok.injEq, Prod.mk.injEq] at h
          exact ⟨by rw [← h.1], h.2⟩

/-- Whatever a scene iteration does, it only appends step-permitted events. -/
theorem processScene_inv (env : Env) (pd : ScriptData) (i : Nat)
    (st : OrchState) :
    extendsSt env st (stepState (processScene env pd i st)) := by
  simp only [processScene]
  split
  · rename_i e heq
    have h := (imageStep_inv env i st false).1
    rw [heq] at h
    exact h
  · rename_i st1 d1 heq
    have h1 : extendsSt env st st1 := by
      have h := (imageStep_inv env i st false).1
      rw [heq] at h
      exact h
    split
    · exact extendsSt_trans h1 (extendsSt_of_eq rfl)
    · split
      · rename_i e heq2
        have h2 := (inspectionStep_inv env i (bumpRead st1) d1).1
        rw [heq2] at h2
        exact extendsSt_trans h1 h2
      · rename_i st2 d2 heq2
        have h2 : extendsSt env st st2 := by
          have h := (inspectionStep_inv env i (bumpRead st1) d1).1
          rw [heq2] at h
          exact extendsSt_trans h1 h
        split
        · exact extendsSt_trans h2 (extendsSt_of_eq rfl)
        · split
          · rename_i e heq3
            have h3 := (videoStep_inv env i (bumpRead st2) d2).1
            rw [heq3] at h3
            exact extendsSt_trans h2 h3
          · rename_i st3 d3 heq3
            have h3 : extendsSt env st st3 := by
              have h := (videoStep_inv env i (bumpRead st2) d2).1
              rw [heq3] at h
              exact extendsSt_trans h2 h
            split
            · exact extendsSt_trans h3 (extendsSt_of_eq rfl)
            · split
              · rename_i e heq4
                have h4 := (audioStep_inv env i (bumpRead st3) d3).1
                rw [heq4] at h4
                exact extendsSt_trans h3 h4
              · rename_i st4 d4 heq4
                have h4 : extendsSt env st st4 := by
                  have h := (audioStep_inv env i (bumpRead st3) d3).1
                  rw [heq4] at h
                  exact extendsSt_trans h3 h
                exact extendsSt_trans h4
                  (sceneEpilogue_extends env pd st4 d4)

/-- Whatever the loop does, it only appends step-permitted events. -/
theorem orchLoop_inv (env : Env) (pd : ScriptData) :
    ∀ (idxs : List Nat) (st : OrchState),
      extendsSt env st (resState (orchLoop env pd idxs st))
  | [], _ => extendsSt_of_eq rfl
  | i :: rest, st => by
    simp only [orchLoop]
    split
    · exact extendsSt_of_eq rfl
    · split
      · rename_i e heq
        have h := processScene_inv env pd i (bumpRead st)
        rw [heq] at h
        exact h
      · rename_i st1 broke heq
        have h : extendsSt env st st1 := by
          have h0 := processScene_inv env pd i (bumpRead st)
          rw [heq] at h0
          exact h0
        split
        · exact h
        · exact extendsSt_trans h (orchLoop_inv env pd rest st1)

theorem save_swallows_write_failure_witness :
    saveToIndexedDB 111 (.ok ()) sampleDoc =
      { sampleDoc with
        meta := { sampleDoc.meta with timestamp := some 111 } } ∧
    saveToIndexedDB 111 (.error "disk full") sampleDoc = sampleDoc :=
  ⟨(save_swallows_write_failure 111 (.ok ()) sampleDoc).1 () rfl,
   (save_swallows_write_failure 111 (.error "disk full") sampleDoc).2
     "disk full" rfl⟩

/-! ## Theorems: orchestrator claims -/

/-- C7: the Veo capability probe is the first event of every run and occurs
exactly once, regardless of the document; and when the probe reports the
capability unavailable, no video-generation call ever occurs during the run
(normal or aborted). -/
theorem probe_once_and_veo_gating (env : Env) (pd : ScriptData) :
    (resState (executeAssetGeneration env pd)).events.count Event.probeVeo
      = 1 ∧
    (resState (executeAssetGeneration env pd)).events.head?
      = some Event.probeVeo ∧
    (env.veoAvailable = false → ∀ u m d, Event.callGenerateVideo u m d ∉
      (resState (executeAssetGeneration env pd)).events) := by
  obtain ⟨l, hl, hp, hv⟩ :=
    orchLoop_inv env pd (List.range pd.scenes.length) (initState pd)
  have hevents : (resState (executeAssetGeneration env pd)).events =
      Event.probeVeo :: l := hl
  refine ⟨?_, ?_, ?_⟩
  · rw [hevents, List.count_cons_self, List.count_eq_zero.mpr hp]
  · rw [hevents]
    rfl
  · intro hveo u m d
    rw [hevents]
    intro hmem
    rcases List.mem_cons.mp hmem with h | h
    · exact Event.noConfusion h
    · exact hv hveo u m d h

/-- Witness for `probe_once_and_veo_gating`: a run over a video-type scene
with the capability unavailable probes once and never calls video
generation. -/
theorem probe_once_and_veo_gating_witness :
    (resState (executeAssetGeneration gateEnv videoDoc)).events.count
      Event.probeVeo = 1 ∧
    Event.callGenerateVideo (some "img0.png") 5 5 ∉
      (resState (executeAssetGeneration gateEnv videoDoc)).events :=
  ⟨(probe_once_and_veo_gating gateEnv videoDoc).1,
   (probe_once_and_veo_gating gateEnv videoDoc).2.2 rfl _ _ _⟩

/-- C1 (amended): checkpointing is per scene, not per step — when a scene
iteration runs to completion without a mid-scene cancellation and its scenes
array changed, the updated document is emitted and one persistence attempt is
made before the loop proceeds. -/
theorem checkpoint_per_scene (env : Env) (pd : ScriptData) (i : Nat)
    (st st' : OrchState)
    (h : processScene env pd i st = .ok (st', false))
    (hchange : st'.scenes ≠ st.scenes) :
    st'.emitted = st.emitted ++ [{ pd with scenes := st'.scenes }] ∧
    st'.saves = st.saves + 1 := by
  simp only [processScene] at h
  split at h
  · exact absurd h (by simp)
  · rename_i st1 d1 heq1
    split at h
    · simp only [Except.ok.injEq, Prod.mk.injEq] at h
      exact absurd h.2 (by simp)
    · split at h
      · exact absurd h (by simp)
      · rename_i st2 d2 heq2
        split at h
        · simp only [Except.ok.injEq, Prod.mk.injEq] at h
          exact absurd h.2 (by simp)
        · split at h
          · exact absurd h (by simp)
          · rename_i st3 d3 heq3
            split at h
            · simp only [Except.ok.injEq, Prod.mk.injEq] at h
              exact absurd h.2 (by simp)
            · split at h
              · exact absurd h (by simp)
              · rename_i st4 d4 heq4
                simp only [Except.ok.injEq, Prod.mk.injEq] at h
                obtain ⟨hst, -⟩ := h
                subst hst
                cases d4 with
                | false =>
                  exfalso
                  apply hchange
                  obtain ⟨hs4, hd3⟩ :=
                    audioStep_no_dirty_no_change env i (bumpRead st3) d3 st4
                      heq4
                  subst hd3
                  obtain ⟨hs3, hd2⟩ :=
                    videoStep_no_dirty_no_change env i (bumpRead st2) d2 st3
                      heq3
                  subst hd2
                  obtain ⟨hs2, hd1⟩ :=
                    inspectionStep_no_dirty_no_change env i (bumpRead st1) d1
                      st2 heq2
                  subst hd1
                  obtain ⟨hs1, -⟩ :=
                    imageStep_no_dirty_no_change env i st false st1 heq1
                  rw [sceneEpilogue_scenes, hs4]
                  show st3.scenes = st.scenes
                  rw [hs3]
                  show st2.scenes = st.scenes
                  rw [hs2]
                  show st1.scenes = st.scenes
                  rw [hs1]
                | true =>
                  have ha := (audioStep_inv env i (bumpRead st3) d3).2.1
                  have ha2 := (audioStep_inv env i (bumpRead st3) d3).2.2.1
                  rw [heq4] at ha ha2
                  have hb := (videoStep_inv env i (bumpRead st2) d2).2.1
                  have hb2 := (videoStep_inv env i (bumpRead st2) d2).2.2.1
                  rw [heq3] at hb hb2
                  have hc := (inspectionStep_inv env i (bumpRead st1) d1).2.1
                  have hc2 :=
                    (inspectionStep_inv env i (bumpRead st1) d1).2.2.1
                  rw [heq2] at hc hc2
                  have hd0 := (imageStep_inv env i st false).2.1
                  have hd02 := (imageStep_inv env i st false).2.2.1
                  rw [heq1] at hd0 hd02
                  simp only [stepState] at ha ha2 hb hb2 hc hc2 hd0 hd02
                  have he4 : st4.emitted = st.emitted := by
                    rw [ha]
                    show st3.emitted = st.emitted
                    rw [hb]
                    show st2.emitted = st.emitted
                    rw [hc]
                    show st1.emitted = st.emitted
                    rw [hd0]
                  have hv4 : st4.saves = st.saves := by
                    rw [ha2]
                    show st3.saves = st.saves
                    rw [hb2]
                    show st2.saves = st.saves
                    rw [hc2]
                    show st1.saves = st.saves
                    rw [hd02]
                  have hd := sceneEpilogue_dirty env pd st4
                  have hsc := sceneEpilogue_scenes env pd st4 true
                  exact ⟨by rw [hd.1, he4, hsc], by rw [hd.2, hv4]⟩

/-- Witness for `checkpoint_per_scene`: the happy-path run of a one-scene
document emits and saves exactly once at scene completion. -/
theorem checkpoint_per_scene_witness :
    (stepState (processScene happyEnv sampleDoc 0 wSt)).emitted =
      wSt.emitted ++ [{ sampleDoc with
        scenes := (stepState (processScene happyEnv sampleDoc 0 wSt)).scenes }] ∧
    (stepState (processScene happyEnv sampleDoc 0 wSt)).saves =
      wSt.saves + 1 :=
  checkpoint_per_scene happyEnv sampleDoc 0 wSt
    (stepState (processScene happyEnv sampleDoc 0 wSt)) rfl (by decide)

/-- C1 (counterexample): with a cancellation observed right after a
successful image step, the scene is mutated in memory
(`is_image_generated = true`) yet the run ends with nothing emitted and
nothing persisted — the completed step was not checkpointed. -/
theorem cancellation_discards_mutation :
    (executeAssetGeneration stopAfterImageEnv sampleDoc).toOption.map
      (fun st => (st.savedDocs.length, st.emitted.length,
        st.scenes.map fun s => s.progress_status.is_image_generated)) =
      some (0, 0, [true]) := rfl

/-- Error propagation: a thrown image step aborts the scene body at once. -/
theorem processScene_error_propagates (env : Env) (pd : ScriptData) (i : Nat)
    (st : OrchState) (e : String × OrchState)
    (h : imageStep env i st false = .error e) :
    processScene env pd i st = .error e := by
  simp only [processScene, h]

/-- Error propagation: a thrown scene body aborts the whole loop at once. -/
theorem orchLoop_error_propagates (env : Env) (pd : ScriptData) (i : Nat)
    (rest : List Nat) (st : OrchState) (e : String × OrchState)
    (hstop : env.stop st.sReads = false)
    (h : processScene env pd i (bumpRead st) = .error e) :
    orchLoop env pd (i :: rest) st = .error e := by
  simp [orchLoop, hstop, h]

/-- A quota-exhaustion failure of the first image attempt is re-thrown by the
retry wrapper with a single invocation. -/
theorem imageStep_quota (env : Env) (i : Nat) (st : OrchState) (d : Bool)
    (scene : Scene) (m : String)
    (hscene : st.scenes.get? i = some scene)
    (hgen : scene.progress_status.is_image_generated = false)
    (hfn : env.genImage st.k scene.prompts.visual_prompt scene.planned_layout
      = .error m)
    (hq : isQuotaMsg (strToLower m) = true) :
    imageStep env i st d = .error (m, { st with
      k := st.k + 1
      events := st.events ++ [Event.callGenerateImage
        scene.prompts.visual_prompt scene.planned_layout] }) := by
  have h1 := @runWithRetry_quota _ (fun k => env.genImage k
    scene.prompts.visual_prompt scene.planned_layout) m 3 4000 st.k hfn hq
  simp only [imageStep]
  rw [hscene]
  simp [hgen, h1]

/-- C2: a wrapped operation failing with a quota-exhaustion message is
invoked exactly once and its failure is re-thrown with no delay; and such an
exception propagates out of the entire `executeAssetGeneration` loop,
aborting the run with no further remote call of the current scene and no
later scene attempted (shown by the event trace at the throw). -/
theorem quota_short_circuit_aborts_run :
    (∀ {α : Type} (fn : Nat → Except String α) (retries baseDelay k : Nat)
      (m : String), fn k = .error m → isQuotaMsg (strToLower m) = true →
        runWithRetry fn retries baseDelay k = ⟨.error m, 1, []⟩) ∧
    (∀ (env : Env) (pd : ScriptData) (scene0 : Scene) (rest : List Scene)
      (m : String), pd.scenes = scene0 :: rest →
        env.stop 0 = false →
        scene0.progress_status.is_image_generated = false →
        env.genImage 0 scene0.prompts.visual_prompt scene0.planned_layout
          = .error m →
        isQuotaMsg (strToLower m) = true →
        executeAssetGeneration env pd =
          .error (m, quotaAbortState pd scene0)) := by
  constructor
  · intro α fn retries baseDelay k m hfn hq
    exact runWithRetry_quota hfn hq
  · intro env pd scene0 rest m hpd hstop hgen hfn hq
    have hrange : List.range pd.scenes.length =
        0 :: List.map Nat.succ (List.range rest.length) := by
      rw [hpd]
      simp [List.range_succ_eq_map]
    have hscene : (bumpRead (initState pd)).scenes.get? 0 = some scene0 := by
      simp [bumpRead, initState, hpd]
    have himg := imageStep_quota env 0 _ false scene0 m hscene hgen hfn hq
    have hproc := processScene_error_propagates env pd 0 _ _ himg
    have hloop := orchLoop_error_propagates env pd 0
      (List.map Nat.succ (List.range rest.length)) (initState pd) _
      hstop hproc
    show orchLoop env pd (List.range pd.scenes.length) (initState pd) = _
    rw [hrange, hloop]
    simp [quotaAbortState, bumpRead, initState]

/-- Witness for `quota_short_circuit_aborts_run` at a concrete operation and
a concrete one-scene run. -/
theorem quota_short_circuit_aborts_run_witness :
    runWithRetry (fun _ => (.error "Quota exceeded: daily limit" :
      Except String String)) 3 4000 0 =
      ⟨.error "Quota exceeded: daily limit", 1, []⟩ ∧
    executeAssetGeneration quotaEnv sampleDoc =
      .error ("Quota exceeded: daily limit",
        quotaAbortState sampleDoc sampleScene) :=
  ⟨quota_short_circuit_aborts_run.1 _ 3 4000 0 _ rfl (by decide),
   quota_short_circuit_aborts_run.2 quotaEnv sampleDoc sampleScene [] _ rfl
     rfl rfl rfl (by decide)⟩

/-- C3: for an eligible video-type scene where the direct video call returns
an empty result, narration splitting returns four segments on the first
attempt, and the composite 2x2 grid image succeeds, the scene is rewritten to
an image-type scene with the grid layout, the four cuts, the backed-up
narration, the grid image in the visual slot, and the video flag false. -/
theorem fallback_grid_correct (env : Env) (i : Nat) (st : OrchState)
    (d : Bool) (scene : Scene) (cuts : List Cut) (img : String)
    (hscene : st.scenes.get? i = some scene)
    (htype : scene.type = SceneType.video)
    (himg : scene.progress_status.is_image_generated = true)
    (hvid : scene.progress_status.is_video_generated = false)
    (hveo : env.veoAvailable = true)
    (hdirect : env.genVideo st.k scene.assets.visual_url
      scene.prompts.motion_strength scene.duration_prediction = .ok "")
    (n1 n2 : Nat) (w1 w2 : List Nat)
    (hsplit : runWithRetry (fun k => env.splitNarration k
      scene.scripts.narration scene.prompts.visual_prompt) 3 4000 (st.k + 1)
      = ⟨.ok (some cuts), n1, w1⟩)
    (hlen : cuts.length = 4)
    (hgrid : runWithRetry (fun k => env.genImage k
      (gridPrompt scene.prompts.visual_prompt cuts) LayoutType.GRID_2X2)
      3 4000 (st.k + 1 + n1) = ⟨.ok (some img), n2, w2⟩)
    (himgne : img ≠ "") :
    videoStep env i st d = .ok ({ st with
      k := st.k + 1 + n1 + n2
      events := st.events ++
        [.callGenerateVideo scene.assets.visual_url
          scene.prompts.motion_strength scene.duration_prediction] ++
        List.replicate n1 (.callSplitNarration scene.scripts.narration
          scene.prompts.visual_prompt) ++
        List.replicate n2 (.callGenerateImage
          (gridPrompt scene.prompts.visual_prompt cuts) LayoutType.GRID_2X2)
      scenes := st.scenes.set i { scene with
        type := SceneType.image
        planned_layout := LayoutType.GRID_2X2
        narration_full := some scene.scripts.narration
        cuts := some cuts
        assets := { scene.assets with visual_url := some img }
        progress_status :=
          { scene.progress_status with is_video_generated := false } } },
      true) := by
  have hempty : "".isEmpty = true := rfl
  simp only [videoStep]
  rw [hscene]
  simp [htype, himg, hvid, hveo, hdirect, videoFallback, hsplit, hgrid, hlen,
    strTruthy, himgne, hempty, String.isEmpty_iff]

/-- Witness for `fallback_grid_correct` on the concrete `videoScene` under
`fallbackEnv`. -/
theorem fallback_grid_correct_witness :
    videoStep fallbackEnv 0 wVSt false = .ok ({ wVSt with
      k := 3
      events := wVSt.events ++
        [.callGenerateVideo (some "img0.png") 5 5] ++
        [.callSplitNarration "hello world" "a cat"] ++
        [.callGenerateImage (gridPrompt "a cat" fourCuts)
           LayoutType.GRID_2X2]
      scenes := wVSt.scenes.set 0 { videoScene with
        type := SceneType.image
        planned_layout := LayoutType.GRID_2X2
        narration_full := some "hello world"
        cuts := some fourCuts
        assets := { videoScene.assets with visual_url := some "img" }
        progress_status :=
          { videoScene.progress_status with is_video_generated := false } } },
      true) :=
  fallback_grid_correct fallbackEnv 0 wVSt false videoScene fourCuts "img"
    rfl rfl rfl rfl rfl rfl 1 1 [] [] rfl rfl rfl (by decide)

/-- C4 (amended): the direct video-generation call is NOT wrapped in the
retry executor — when it throws (any error, quota or not), the exception
escapes the video step with exactly one video-call event recorded and no
fallback attempted. -/
theorem video_call_unwrapped (env : Env) (i : Nat) (st : OrchState)
    (d : Bool) (scene : Scene) (m : String)
    (hscene : st.scenes.get? i = some scene)
    (htype : scene.type = SceneType.video)
    (himg : scene.progress_status.is_image_generated = true)
    (hvid : scene.progress_status.is_video_generated = false)
    (hveo : env.veoAvailable = true)
    (hthrow : env.genVideo st.k scene.assets.visual_url
      scene.prompts.motion_strength scene.duration_prediction = .error m) :
    videoStep env i st d = .error (m, { st with
      k := st.k + 1
      events := st.events ++ [.callGenerateVideo scene.assets.visual_url
        scene.prompts.motion_strength scene.duration_prediction] }) := by
  simp only [videoStep]
  rw [hscene]
  simp [htype, himg, hvid, hveo, hthrow]

/-- Witness for `video_call_unwrapped` on the concrete `videoScene` under
`videoThrowEnv`. -/
theorem video_call_unwrapped_witness :
    videoStep videoThrowEnv 0 wVSt false = .error ("network down",
      { wVSt with
        k := 1
        events := wVSt.events ++
          [.callGenerateVideo (some "img0.png") 5 5] }) :=
  video_call_unwrapped videoThrowEnv 0 wVSt false videoScene "network down"
    rfl rfl rfl rfl rfl rfl

/-- C4 (counterexample): a non-quota error thrown by the video-generation
call aborts the whole run — the error escapes `executeAssetGeneration`, and
the event trace at the throw shows no narration-splitting or grid-image
fallback was attempted, contradicting the claim that the call is wrapped and
its failure triggers the fallback. -/
theorem video_unwrapped_counterexample :
    errMsg (executeAssetGeneration videoThrowEnv videoDoc) =
      some "network down" ∧
    errEvents (executeAssetGeneration videoThrowEnv videoDoc) =
      some [Event.probeVeo, Event.callGenerateVideo (some "img0.png") 5 5] :=
  ⟨rfl, rfl⟩

/-- C6: when the retry-wrapped inspection call comes back empty, the scene
still gets the default degraded inspection result and is marked inspected,
and the step returns normally so the pipeline proceeds. -/
theorem inspection_degradation (env : Env) (i : Nat) (st : OrchState)
    (d : Bool) (scene : Scene) (n : Nat) (w : List Nat)
    (hscene : st.scenes.get? i = some scene)
    (hgen : scene.progress_status.is_image_generated = true)
    (hinsp : scene.progress_status.is_image_inspected = false)
    (hfail : runWithRetry (fun k => env.inspectImage k scene.assets.visual_url)
      3 4000 st.k = ⟨.ok none, n, w⟩) :
    inspectionStep env i st d = .ok ({ st with
      k := st.k + n
      events := st.events ++
        List.replicate n (.callInspectImage scene.assets.visual_url)
      scenes := st.scenes.set i { scene with
        inspection_data := some defaultInspection
        progress_status :=
          { scene.progress_status with is_image_inspected := true } } },
      true) := by
  simp only [inspectionStep]
  rw [hscene]
  simp [hgen, hinsp, hfail]

/-- Witness for `inspection_degradation` on the concrete `inspectScene` under
`inspectFailEnv` (whose inspection call always throws a non-retryable
error, which the executor swallows to an empty result). -/
theorem inspection_degradation_witness :
    inspectionStep inspectFailEnv 0 wISt false = .ok ({ wISt with
      k := 1
      events := wISt.events ++
        [.callInspectImage (some "img0.png")]
      scenes := wISt.scenes.set 0 { inspectScene with
        inspection_data := some defaultInspection
        progress_status :=
          { inspectScene.progress_status with is_image_inspected := true } } },
      true) :=
  inspection_degradation inspectFailEnv 0 wISt false inspectScene 1 []
    rfl rfl rfl rfl

/-- C8: the text sent to speech generation follows the priority order
`tts_text`, then `narration_full`, then `narration` (each optional field
taken when present and non-empty, matching JavaScript `||` on the source's
string fields), and a successful result fills the audio slot and flips
`is_audio_generated`. -/
theorem audio_text_priority (env : Env) (i : Nat) (st : OrchState) (d : Bool)
    (scene : Scene) (a : String) (n : Nat) (w : List Nat)
    (hscene : st.scenes.get? i = some scene)
    (haud : scene.progress_status.is_audio_generated = false)
    (htts : ∀ s, scene.scripts.tts_text = some s → s.isEmpty = false)
    (hnf : ∀ s, scene.narration_full = some s → s.isEmpty = false)
    (htr : runWithRetry (fun k => env.genSpeech k
        (specAudioChoice scene.scripts.tts_text scene.narration_full
          scene.scripts.narration)
        scene.scripts.voice_tone) 3 4000 st.k = ⟨.ok (some a), n, w⟩)
    (ha : a.isEmpty = false) :
    audioStep env i st d = .ok ({ st with
      k := st.k + n
      events := st.events ++ List.replicate n (.callGenerateSpeech
        (specAudioChoice scene.scripts.tts_text scene.narration_full
          scene.scripts.narration)
        scene.scripts.voice_tone)
      scenes := st.scenes.set i { scene with
        assets := { scene.assets with audio_url := some a }
        progress_status :=
          { scene.progress_status with is_audio_generated := true } } },
      true) := by
  have hsel : strOrElse scene.scripts.tts_text
      (strOrElse scene.narration_full scene.scripts.narration) =
      specAudioChoice scene.scripts.tts_text scene.narration_full
        scene.scripts.narration := by
    cases htt : scene.scripts.tts_text with
    | some s => simp [strOrElse, specAudioChoice, htts s htt]
    | none =>
      cases hnn : scene.narration_full with
      | some s => simp [strOrElse, specAudioChoice, hnf s hnn]
      | none => rfl
  simp only [audioStep]
  rw [hscene]
  simp [haud, hsel, htr, strTruthy, ha]

/-- Witness for `audio_text_priority` on the concrete `audioScene` (which
carries both a TTS text and a backup narration, so the TTS text wins). -/
theorem audio_text_priority_witness :
    audioStep happyEnv 0 wASt false = .ok ({ wASt with
      k := 1
      events := wASt.events ++
        [.callGenerateSpeech "tts text" VoiceTone.calm]
      scenes := wASt.scenes.set 0 { audioScene with
        assets := { audioScene.assets with audio_url := some "aud" }
        progress_status :=
          { audioScene.progress_status with is_audio_generated := true } } },
      true) :=
  audio_text_priority happyEnv 0 wASt false audioScene "aud" 1 []
    rfl rfl (fun s hs => by cases hs; rfl) (fun s hs => by cases hs; rfl)
    rfl rfl

end CM
